import Mathlib

set_option autoImplicit false
set_option maxRecDepth 8000

/-!
Shallow embedding of the driver-payments portal (streamlit_deploy/app.py and
streamlit_deploy/driver_portal.py): the data cleaning, filtering,
summarization and login logic, with pandas column access modelled explicitly
(a missing column raises `KeyError`, modelled as `Except.error`).
-/

namespace DriverPayments

/-- A cleaned trip-payment record: one row of the DataFrame after
`load_data` / `load_all_data`.  String columns keep their string form
(`astype(str)` is the identity on them); `job_date` is `none` when
`pd.to_datetime(..., errors=\x27coerce\x27)` produced `NaT` (dates are
modelled as integers, e.g. day numbers); money columns are already numeric
(rationals) after cleaning. -/
structure Row where
  driver_num : String
  trip_id : String
  nacha_title : String
  account : String
  status : String
  bank : String
  first_name : String
  last_name : String
  job_date : Option Int
  total_paid : Rat
  total_fare : Rat
  coop_commission : Rat
  tips : Rat
  tolls : Rat
  base_fare : Rat
  wait_time_pay : Rat
  stops_amount : Rat
  cash_collected : Rat
  darter : Rat
deriving DecidableEq, Repr

/-- A DataFrame: a list of rows plus, for each column the code ever tests or
accesses, a flag recording whether that column is present in the table
(pandas columns exist table-wide, so presence is a table-level fact). -/
structure Table where
  hasDriverNum : Bool
  hasTripId : Bool
  hasNachaTitle : Bool
  hasAccount : Bool
  hasStatus : Bool
  hasBank : Bool
  hasFirstName : Bool
  hasLastName : Bool
  hasJobDate : Bool
  hasTotalPaid : Bool
  hasTotalFare : Bool
  hasCoopCommission : Bool
  hasTips : Bool
  hasTolls : Bool
  hasBaseFare : Bool
  hasWaitTimePay : Bool
  hasStopsAmount : Bool
  hasCashCollected : Bool
  hasDarter : Bool
  rows : List Row
deriving DecidableEq, Repr

/-- A table with every column present, used to build concrete instances. -/
def mkTable (rows : List Row) : Table :=
  { hasDriverNum := true, hasTripId := true, hasNachaTitle := true,
    hasAccount := true, hasStatus := true, hasBank := true,
    hasFirstName := true, hasLastName := true, hasJobDate := true,
    hasTotalPaid := true, hasTotalFare := true, hasCoopCommission := true,
    hasTips := true, hasTolls := true, hasBaseFare := true,
    hasWaitTimePay := true, hasStopsAmount := true, hasCashCollected := true,
    hasDarter := true, rows := rows }

/-! ### String matching

`pandas.Series.str.contains(pat)` defaults to `case=True, regex=True`: it is
`re.search(pat, s)`.  We embed `re.search` for the fragment of pattern
syntax the proofs exercise: a pattern is a sequence of characters, each
either the metacharacter `.` (matching any character except a newline) or a
literal character.  Theorems that read the pattern as literal text carry the
hypothesis that its characters are regex-literal (no metacharacters), the
boundary of the modelled fragment. -/

/-- Does the pattern match a prefix of the text, one pattern character per
text character, with `.` matching any character except a newline? -/
def matchAt : List Char → List Char → Bool
  | [], _ => true
  | _ :: _, [] => false
  | p :: ps, c :: cs => (if p == '.' then c != '\n' else p == c) && matchAt ps cs

/-- Scan of `re.search`: does the pattern match starting at some position of
the text (including the position just past the end)? -/
def reSearch (pat : List Char) : List Char → Bool
  | [] => matchAt pat []
  | c :: cs => matchAt pat (c :: cs) || reSearch pat cs

/-- Model of `Series.str.contains(pat)` with its defaults
(`case=True, regex=True`), applied to one cell. -/
def str_contains (pat s : String) : Bool :=
  reSearch pat.data s.data

/-- Model of `Series.str.contains(pat, case=False)` applied to one cell:
case is ignored by lowercasing both sides. -/
def str_contains_ci (pat s : String) : Bool :=
  reSearch pat.toLower.data s.toLower.data

/-- Does the pattern, read as literal text, match at the start of the text? -/
def litStart : List Char → List Char → Bool
  | [], _ => true
  | _ :: _, [] => false
  | p :: ps, c :: cs => p == c && litStart ps cs

/-- Does the pattern, read as literal text, occur as a contiguous substring
of the text?  This is the spec-side notion of "substring match". -/
def occursLit (pat : List Char) : List Char → Bool
  | [] => litStart pat []
  | c :: cs => litStart pat (c :: cs) || occursLit pat cs

/-- Characters that plain-text search strings are made of: not one of the
Python regular-expression metacharacters. -/
def regexLiteralChar (c : Char) : Bool :=
  !([ '.', '\\', '[', ']', '(', ')', '\x7b', '\x7d', '^', '$', '*', '+', '?', '|'].contains c)

/-! ### Cleaner (load_data / load_all_data)

For each money column the code runs
`df[col].astype(str).str.replace(\x27$\x27, \x27\x27).str.replace(\x27,\x27, \x27\x27)`
and then `pd.to_numeric(..., errors=\x27coerce\x27).fillna(0)`. -/

/-- Model of `.str.replace(\x27$\x27, \x27\x27, regex=False)` followed by
`.str.replace(\x27,\x27, \x27\x27, regex=False)` on one cell: every `$` and
every `,` is removed. -/
def stripMoneySymbols (s : String) : String :=
  String.mk ((s.data.filter (fun c => c != '$')).filter (fun c => c != ','))

/-- Numeric value of a digit string (most significant digit first). -/
def natFromDigits (cs : List Char) : Nat :=
  cs.foldl (fun acc c => 10 * acc + (c.toNat - 48)) 0

/-- Value of a fractional digit string: `natFromDigits cs / 10 ^ |cs|`. -/
def fracFromDigits (cs : List Char) : Rat :=
  (natFromDigits cs : Rat) / ((10 : Rat) ^ cs.length)

/-- Parse an unsigned decimal numeral: digits, optionally followed by a
point and further digits, with at least one digit overall. -/
def parseUnsigned (cs : List Char) : Option Rat :=
  let intPart := cs.takeWhile Char.isDigit
  let rest := cs.dropWhile Char.isDigit
  match rest with
  | [] => if intPart.isEmpty then none else some (natFromDigits intPart : Rat)
  | '.' :: frac =>
      if frac.all Char.isDigit && !(intPart.isEmpty && frac.isEmpty) then
        some ((natFromDigits intPart : Rat) + fracFromDigits frac)
      else none
  | _ => none

/-- Model of `pd.to_numeric(cell, errors=\x27coerce\x27)` on one cell, for
the plain decimal fragment of its grammar (optional sign, digits, optional
fractional part); anything else coerces to `none` (NaN).  Exponent forms and
surrounding whitespace are outside the modelled fragment. -/
def parseDecimal (s : String) : Option Rat :=
  match s.data with
  | '-' :: cs => (parseUnsigned cs).map (fun q => -q)
  | '+' :: cs => parseUnsigned cs
  | cs => parseUnsigned cs

/-- Cleaning of one raw monetary cell: strip `$` and `,`, parse as a
decimal, and `.fillna(0)`: an unparseable or missing cell becomes `0`. -/
def cleanMoney (s : String) : Rat :=
  (parseDecimal (stripMoneySymbols s)).getD 0

/-- Cleaning of a whole money column, cell by cell. -/
def cleanMoneyColumn (col : List String) : List Rat :=
  col.map cleanMoney

/-! ### Filter engine (app.py lines 109-139, driver_portal.py lines 146-154)

Each code block becomes a step; a step that accesses a column with no
presence guard returns `Except.error` when the column is missing, exactly
where pandas would raise `KeyError`. -/

/-- The search criteria of the admin view: the three text inputs, the three
selectboxes (`"All"` means unset) and the date-range widget, whose value is
a list of zero, one or two picked dates. -/
structure Criteria where
  search_name : String
  search_driver_id : String
  search_trip_id : String
  search_nacha : String
  search_account : String
  search_status : String
  date_range : List Int
deriving DecidableEq, Repr

/-- String form of a date cell, as `astype(str)` renders it (`NaT` for a
missing date); the exact rendering is not relied on by any theorem. -/
def dateCellStr : Option Int → String
  | some d => toString d
  | none => "NaT"

/-- String forms of every cell of a row whose column is present, as
`filtered_df.astype(str)` produces them; numeric renderings are via
`toString` and are not relied on by any theorem. -/
def rowStrings (t : Table) (r : Row) : List String :=
  (if t.hasDriverNum then [r.driver_num] else []) ++
  (if t.hasTripId then [r.trip_id] else []) ++
  (if t.hasNachaTitle then [r.nacha_title] else []) ++
  (if t.hasAccount then [r.account] else []) ++
  (if t.hasStatus then [r.status] else []) ++
  (if t.hasBank then [r.bank] else []) ++
  (if t.hasFirstName then [r.first_name] else []) ++
  (if t.hasLastName then [r.last_name] else []) ++
  (if t.hasJobDate then [dateCellStr r.job_date] else []) ++
  (if t.hasTotalPaid then [toString r.total_paid] else []) ++
  (if t.hasTotalFare then [toString r.total_fare] else []) ++
  (if t.hasCoopCommission then [toString r.coop_commission] else []) ++
  (if t.hasTips then [toString r.tips] else []) ++
  (if t.hasTolls then [toString r.tolls] else []) ++
  (if t.hasBaseFare then [toString r.base_fare] else []) ++
  (if t.hasWaitTimePay then [toString r.wait_time_pay] else []) ++
  (if t.hasStopsAmount then [toString r.stops_amount] else []) ++
  (if t.hasCashCollected then [toString r.cash_collected] else []) ++
  (if t.hasDarter then [toString r.darter] else [])

/-- Driver-name block: skipped when the input is empty; with both name
columns present it matches `first_name ++ " " ++ last_name` case-insensitively
(the `full_name` helper column the code adds is not kept, no later step reads
it); otherwise it falls back to a case-insensitive match over the string form
of every cell of the row. -/
def nameStep (s : String) (t : Table) : Table :=
  if s = "" then t
  else if t.hasFirstName && t.hasLastName then
    { t with
      rows := t.rows.filter
        (fun r => str_contains_ci s (r.first_name ++ " " ++ r.last_name)) }
  else
    { t with
      rows := t.rows.filter
        (fun r => (rowStrings t r).any (fun cell => str_contains_ci s cell)) }

/-- Driver-ID block: `filtered_df[\x27driver_num\x27].astype(str).str.contains(s, na=False)`,
with no presence guard on the column. -/
def driverStep (s : String) (t : Table) : Except String Table :=
  if s = "" then .ok t
  else if t.hasDriverNum then
    .ok { t with rows := t.rows.filter (fun r => str_contains s r.driver_num) }
  else .error "KeyError: driver_num"

/-- Trip-ID block: `filtered_df[\x27trip_id\x27].astype(str).str.contains(s, na=False)`,
with no presence guard on the column. -/
def tripStep (s : String) (t : Table) : Except String Table :=
  if s = "" then .ok t
  else if t.hasTripId then
    .ok { t with rows := t.rows.filter (fun r => str_contains s r.trip_id) }
  else .error "KeyError: trip_id"

/-- NACHA block: exact match on `nacha_title` unless the choice is `"All"`,
with no presence guard on the column. -/
def nachaStep (s : String) (t : Table) : Except String Table :=
  if s = "All" then .ok t
  else if t.hasNachaTitle then
    .ok { t with rows := t.rows.filter (fun r => r.nacha_title == s) }
  else .error "KeyError: nacha_title"

/-- Account block: exact match on `account`, guarded by both
`search_account != "All"` and `\x27account\x27 in filtered_df.columns`; a
missing column means the step is skipped, never an error. -/
def accountStep (s : String) (t : Table) : Table :=
  if s != "All" && t.hasAccount then
    { t with rows := t.rows.filter (fun r => r.account == s) }
  else t

/-- Status block: exact match on `status` unless the choice is `"All"`, with
no presence guard on the column inside the filtering logic (the UI layer
forces `"All"` when the column is absent). -/
def statusStep (s : String) (t : Table) : Except String Table :=
  if s = "All" then .ok t
  else if t.hasStatus then
    .ok { t with rows := t.rows.filter (fun r => r.status == s) }
  else .error "KeyError: status"

/-- Date block: applied only when the widget returned exactly two dates, in
which case rows are kept when `start ≤ job_date ≤ end`; a comparison with a
missing date (`NaT`) is false, so such rows are dropped.  Accesses
`job_date` with no presence guard. -/
def dateStep (dr : List Int) (t : Table) : Except String Table :=
  match dr with
  | [start_date, end_date] =>
      if t.hasJobDate then
        .ok { t with
              rows := t.rows.filter (fun r =>
                match r.job_date with
                | some d => start_date ≤ d && d ≤ end_date
                | none => false) }
      else .error "KeyError: job_date"
  | _ => .ok t

/-- The whole filtering logic of app.py lines 109-139: the seven blocks in
source order, each threading the table of the previous one. -/
def appFilter (c : Criteria) (t : Table) : Except String Table := do
  let t1 := nameStep c.search_name t
  let t2 ← driverStep c.search_driver_id t1
  let t3 ← tripStep c.search_trip_id t2
  let t4 ← nachaStep c.search_nacha t3
  let t5 := accountStep c.search_account t4
  let t6 ← statusStep c.search_status t5
  dateStep c.date_range t6

/-- The filtering of the driver dashboard (driver_portal.py lines 146-154):
date range then trip-ID search, over the authenticated scope. -/
def dashboardFilter (dr : List Int) (trip_search : String) (t : Table) :
    Except String Table := do
  let t1 ← dateStep dr t
  tripStep trip_search t1

/-- Insert a string into an already sorted list, keeping it sorted. -/
def insertSorted (x : String) : List String → List String
  | [] => [x]
  | y :: ys => if x ≤ y then x :: y :: ys else y :: insertSorted x ys

/-- Ascending sort of a list of strings (models Python `sorted`). -/
def sortedStrings : List String → List String
  | [] => []
  | x :: xs => insertSorted x (sortedStrings xs)

/-- First-occurrence deduplication (models `Series.unique()`). -/
def uniqueFirstAux (seen : List String) : List String → List String
  | [] => []
  | x :: xs =>
      if seen.contains x then uniqueFirstAux seen xs
      else x :: uniqueFirstAux (x :: seen) xs

/-- First-occurrence deduplication of a whole column. -/
def uniqueFirst (l : List String) : List String :=
  uniqueFirstAux [] l

/-- The NACHA selectbox options (app.py line 81):
`["All"] + sorted(list(df[\x27nacha_title\x27].astype(str).unique()))`, with
no presence guard on the column. -/
def nacha_options (t : Table) : Except String (List String) :=
  if t.hasNachaTitle then
    .ok ("All" :: sortedStrings (uniqueFirst (t.rows.map (fun r => r.nacha_title))))
  else .error "KeyError: nacha_title"

/-! ### Aggregator (driver_portal.py lines 162-174 and 206) -/

/-- The payment statement: the seven column sums the dashboard computes,
the derived gross fare and net deposit, and the trip count. -/
structure Statement where
  sum_base : Rat
  sum_wait : Rat
  sum_stops : Rat
  sum_tolls : Rat
  sum_tips : Rat
  sum_comm : Rat
  sum_cash : Rat
  gross_fare : Rat
  net_deposit : Rat
  trip_count : Nat
deriving DecidableEq, Repr

/-- Aggregation over a (filtered) table: each sum is guarded by column
presence and defaults to `0`; `gross_fare` is the sum of the five earning
components; `net_deposit` is the `total_paid` sum; `trip_count` is `len(df)`. -/
def summarize (t : Table) : Statement :=
  let sum_base := if t.hasBaseFare then (t.rows.map (fun r => r.base_fare)).sum else 0
  let sum_wait := if t.hasWaitTimePay then (t.rows.map (fun r => r.wait_time_pay)).sum else 0
  let sum_stops := if t.hasStopsAmount then (t.rows.map (fun r => r.stops_amount)).sum else 0
  let sum_tolls := if t.hasTolls then (t.rows.map (fun r => r.tolls)).sum else 0
  let sum_tips := if t.hasTips then (t.rows.map (fun r => r.tips)).sum else 0
  let sum_comm := if t.hasCoopCommission then (t.rows.map (fun r => r.coop_commission)).sum else 0
  let sum_cash := if t.hasCashCollected then (t.rows.map (fun r => r.cash_collected)).sum else 0
  { sum_base := sum_base, sum_wait := sum_wait, sum_stops := sum_stops,
    sum_tolls := sum_tolls, sum_tips := sum_tips, sum_comm := sum_comm,
    sum_cash := sum_cash,
    gross_fare := sum_base + sum_wait + sum_stops + sum_tolls + sum_tips,
    net_deposit := if t.hasTotalPaid then (t.rows.map (fun r => r.total_paid)).sum else 0,
    trip_count := t.rows.length }

/-- The all-zero statement with no trips. -/
def emptyStatement : Statement :=
  { sum_base := 0, sum_wait := 0, sum_stops := 0, sum_tolls := 0,
    sum_tips := 0, sum_comm := 0, sum_cash := 0, gross_fare := 0,
    net_deposit := 0, trip_count := 0 }

/-! ### Access gate (driver_portal.py login_screen, lines 88-114) -/

/-- Outcome of a login attempt, as the code distinguishes them. -/
inductive LoginResult where
  | noData
  | notFound
  | wrongPin
  | success (scope : Table) (driver_name : String)
deriving DecidableEq, Repr

/-- The login check: with a non-empty table, rows whose trimmed string-form
`driver_num` equals the trimmed ID input are selected; if none, the ID is
not found; otherwise, if some selected row has trimmed string-form `bank`
equal to the trimmed PIN input, the session is authenticated with scope the
whole selection (not only the matching bank rows).  Column accesses
(`driver_num`, then `bank` once a user was found) have no presence guard. -/
def login_screen (df : Table) (driver_id_input bank_pin_input : String) :
    Except String LoginResult :=
  if df.rows.isEmpty then .ok .noData
  else if !df.hasDriverNum then .error "KeyError: driver_num"
  else
    let user_rows := df.rows.filter
      (fun r => r.driver_num.trim == driver_id_input.trim)
    if user_rows.isEmpty then .ok .notFound
    else if !df.hasBank then .error "KeyError: bank"
    else
      let valid_bank := user_rows.filter
        (fun r => r.bank.trim == bank_pin_input.trim)
      if valid_bank.isEmpty then .ok .wrongPin
      else
        let first := if df.hasFirstName
          then ((user_rows.head?.map (fun r => r.first_name)).getD "") else "Driver"
        let last := if df.hasLastName
          then ((user_rows.head?.map (fun r => r.last_name)).getD "") else ""
        .ok (.success { df with rows := user_rows } (first ++ " " ++ last))

deriving instance DecidableEq for Except

/-! ### Concrete instances used by witnesses and counterexamples -/

/-- A representative fully-populated record for driver 5800905. -/
def rowW : Row :=
  { driver_num := "5800905", trip_id := "512345", nacha_title := "NACHA_A",
    account := "Acme", status := "Processed", bank := "1234",
    first_name := "Fred", last_name := "Jones", job_date := some 100,
    total_paid := 10, total_fare := 12, coop_commission := 1, tips := 2,
    tolls := 3, base_fare := 4, wait_time_pay := 5, stops_amount := 6,
    cash_collected := 7, darter := 0 }

/-- A second driver whose `total_paid` is negative (a clawback row). -/
def rowNeg : Row :=
  { driver_num := "2222222", trip_id := "600000", nacha_title := "NACHA_B",
    account := "Acme", status := "Pending", bank := "9999",
    first_name := "Ann", last_name := "Lee", job_date := none,
    total_paid := -5, total_fare := 0, coop_commission := 0, tips := 0,
    tolls := 0, base_fare := 0, wait_time_pay := 0, stops_amount := 0,
    cash_collected := 0, darter := 0 }

/-- A record whose identifiers contain upper-case letters. -/
def rowAB : Row :=
  { driver_num := "AB5", trip_id := "AB5", nacha_title := "NACHA_A",
    account := "Acme", status := "Processed", bank := "1234",
    first_name := "Bo", last_name := "Kim", job_date := some 100,
    total_paid := 1, total_fare := 1, coop_commission := 0, tips := 0,
    tolls := 0, base_fare := 1, wait_time_pay := 0, stops_amount := 0,
    cash_collected := 0, darter := 0 }

/-- Criteria with every control in its unset position. -/
def noCriteria : Criteria :=
  { search_name := "", search_driver_id := "", search_trip_id := "",
    search_nacha := "All", search_account := "All", search_status := "All",
    date_range := [] }

/-- Criteria whose only active control is a driver-ID search for "58". -/
def driver58Criteria : Criteria :=
  { noCriteria with search_driver_id := "58" }

/-! ### Helper lemmas -/

/-- Removing every `$` and `,` a second time changes nothing. -/
lemma stripMoneySymbols_idem (s : String) :
    stripMoneySymbols (stripMoneySymbols s) = stripMoneySymbols s := by
  unfold stripMoneySymbols
  simp only [List.filter_filter]
  congr 1
  apply List.filter_congr
  intro c _
  cases h1 : c != '$' <;> cases h2 : c != ',' <;> simp [h1, h2]

/-! ### Claim theorems -/

/-- C5: cleaning a raw monetary cell strips `$` and `,` and parses the rest
as a decimal, so any string cleans to the same value as the same string with
`$` and `,` removed; the worked example cleans to 1234.50; an unparseable
remainder cleans to 0 (concretely, the empty and an alphabetic cell clean to
0); and cleaning a whole column is total, returning one value per cell, so a
bad cell never fails the load. -/
theorem money_cleaning_spec :
    (∀ s, cleanMoney s = cleanMoney (stripMoneySymbols s)) ∧
    cleanMoney "$1,234.50" = 1234.5 ∧
    (∀ s, parseDecimal (stripMoneySymbols s) = none → cleanMoney s = 0) ∧
    cleanMoney "abc" = 0 ∧ cleanMoney "" = 0 ∧
    (∀ col, (cleanMoneyColumn col).length = col.length) := by
  refine ⟨?_, ?_, ?_, ?_, ?_, ?_⟩
  · intro s
    unfold cleanMoney
    rw [stripMoneySymbols_idem]
  · with_unfolding_all decide
  · intro s h
    unfold cleanMoney
    rw [h]
    rfl
  · with_unfolding_all decide
  · with_unfolding_all decide
  · intro col
    simp [cleanMoneyColumn]

/-- Witness for C5: the hypotheses of the conditional conjunct are
discharged on the concrete cell "N/A". -/
theorem money_cleaning_spec_witness : cleanMoney "N/A" = 0 :=
  money_cleaning_spec.2.2.1 "N/A" (by with_unfolding_all decide)

/-- C8: summarizing an empty set of records returns 0 for every monetary
sum, including the derived gross fare and net deposit, and a trip count of
0, with no error. -/
theorem summarize_empty_statement (t : Table) (h : t.rows = []) :
    summarize t = emptyStatement := by
  simp [summarize, emptyStatement, h]

/-- Witness for C8: the all-columns table with no rows. -/
theorem summarize_empty_statement_witness :
    (mkTable []).rows = [] ∧ summarize (mkTable []) = emptyStatement :=
  ⟨rfl, summarize_empty_statement (mkTable []) rfl⟩

/-- C9: the trip-ID search string is handed to the matcher as a regular
expression, so the pattern "." retains the record with trip_id "512345"
even though "." does not occur in "512345" as a literal substring. -/
theorem id_search_is_regex :
    tripStep "." (mkTable [rowW]) = .ok (mkTable [rowW]) ∧
    occursLit ".".data rowW.trip_id.data = false := by
  with_unfolding_all decide

/-- C6: the filter applied with no criteria set (empty text inputs, every
selectbox on "All", no complete date range) returns the input table
unchanged. -/
theorem filter_identity_law (t : Table) (dr : List Int) (h : dr.length ≠ 2) :
    appFilter { noCriteria with date_range := dr } t = .ok t := by
  rcases dr with _ | ⟨a, _ | ⟨b, _ | ⟨c, rest⟩⟩⟩
  · simp [appFilter, noCriteria, nameStep, driverStep, tripStep, nachaStep,
      accountStep, statusStep, dateStep, Bind.bind, Except.bind]
  · simp [appFilter, noCriteria, nameStep, driverStep, tripStep, nachaStep,
      accountStep, statusStep, dateStep, Bind.bind, Except.bind]
  · exact absurd rfl h
  · simp [appFilter, noCriteria, nameStep, driverStep, tripStep, nachaStep,
      accountStep, statusStep, dateStep, Bind.bind, Except.bind]

/-- Witness for C6: the identity law applied to the one-record table with an
empty date range. -/
theorem filter_identity_law_witness :
    ([] : List Int).length ≠ 2 ∧
    appFilter noCriteria (mkTable [rowW]) = .ok (mkTable [rowW]) :=
  ⟨by decide, filter_identity_law (mkTable [rowW]) [] (by decide)⟩

/-- C4: the date-range criterion is a no-op unless both bounds were picked,
and with both bounds a record is retained exactly when its job_date is a
date inside the inclusive interval. -/
theorem date_range_filter (t : Table) (hJD : t.hasJobDate = true) :
    (∀ dr : List Int, dr.length ≠ 2 → dateStep dr t = .ok t) ∧
    (∀ s e : Int, ∀ t' : Table, dateStep [s, e] t = .ok t' →
      ∀ r : Row, r ∈ t'.rows ↔
        (r ∈ t.rows ∧ ∃ d, r.job_date = some d ∧ s ≤ d ∧ d ≤ e)) := by
  constructor
  · intro dr h
    rcases dr with _ | ⟨a, _ | ⟨b, _ | ⟨c, rest⟩⟩⟩
    · rfl
    · rfl
    · exact absurd rfl h
    · rfl
  · intro s e t' h r
    unfold dateStep at h
    rw [hJD] at h
    simp only [if_true] at h
    cases h
    rw [List.mem_filter]
    refine and_congr_right fun _ => ?_
    rcases hd : r.job_date with _ | d <;> simp [hd]

/-- Witness for C4: a single-bound range is a no-op on the one-record table,
and with bounds [0, 200] the record with job_date 100 is retained. -/
theorem date_range_filter_witness :
    dateStep [(3 : Int)] (mkTable [rowW]) = .ok (mkTable [rowW]) ∧
    (rowW ∈ (mkTable [rowW]).rows ∧
      ∃ d, rowW.job_date = some d ∧ (0 : Int) ≤ d ∧ d ≤ 200) :=
  ⟨(date_range_filter (mkTable [rowW]) rfl).1 [3] (by decide),
   ((date_range_filter (mkTable [rowW]) rfl).2 0 200 (mkTable [rowW])
      (by with_unfolding_all decide) rowW).mp (by decide)⟩

/-- C10: whenever a complete date range is applied, every record whose
job_date is null is excluded from the result, whatever the bounds. -/
theorem date_range_excludes_null (t t' : Table) (s e : Int) (r : Row)
    (h : dateStep [s, e] t = .ok t') (hr : r ∈ t'.rows) :
    r.job_date ≠ none := by
  unfold dateStep at h
  cases hJD : t.hasJobDate
  · rw [hJD] at h
    simp at h
  · rw [hJD] at h
    simp only [if_true] at h
    cases h
    rw [List.mem_filter] at hr
    rcases hd : r.job_date with _ | d
    · rw [hd] at hr
      simp at hr
    · simp [hd]

/-- Witness for C10: filtering [rowW, rowNeg] by the range [0, 200] keeps
rowW, whose job_date is hence not null (rowNeg, with null job_date, is
dropped). -/
theorem date_range_excludes_null_witness :
    rowW.job_date ≠ none :=
  date_range_excludes_null (mkTable [rowW, rowNeg])
    { mkTable [rowW, rowNeg] with rows := [rowW] } 0 200 rowW
    (by with_unfolding_all decide) (by decide)

/-- On a metacharacter-free pattern, the one-position regex match is the
literal prefix test. -/
lemma matchAt_eq_litStart :
    ∀ pat : List Char, pat.all regexLiteralChar = true →
      ∀ s, matchAt pat s = litStart pat s := by
  intro pat
  induction pat with
  | nil =>
    intro _ s
    cases s <;> rfl
  | cons p ps ih =>
    intro h s
    obtain ⟨hp, hps⟩ : regexLiteralChar p = true ∧ ps.all regexLiteralChar = true := by
      simpa using h
    cases s with
    | nil => rfl
    | cons c cs =>
      have hdot : (p == '.') = false := by
        cases hpd : p == '.'
        · rfl
        · have hpe : p = '.' := by simpa using hpd
          subst hpe
          exact absurd hp (by decide)
      simp [matchAt, litStart, hdot, ih hps cs]

/-- On a metacharacter-free pattern, the regex scan is literal-substring
occurrence. -/
lemma reSearch_eq_occursLit (pat : List Char) (h : pat.all regexLiteralChar = true) :
    ∀ s, reSearch pat s = occursLit pat s := by
  intro s
  induction s with
  | nil => simp [reSearch, occursLit, matchAt_eq_litStart pat h]
  | cons c cs ih => simp [reSearch, occursLit, matchAt_eq_litStart pat h, ih]

/-- The empty pattern occurs in every string. -/
lemma occursLit_nil (s : List Char) : occursLit [] s = true := by
  cases s <;> simp [occursLit, litStart]

/-- Membership in a contains-filtered list, for metacharacter-free
patterns: kept exactly when the pattern occurs literally in the field. -/
lemma mem_contains_filter (pat : String) (hpat : pat.data.all regexLiteralChar = true)
    (f : Row → String) (l : List Row) (r : Row) :
    r ∈ l.filter (fun x => str_contains pat (f x)) ↔
      (r ∈ l ∧ occursLit pat.data (f r).data = true) := by
  rw [List.mem_filter]
  simp [str_contains, reSearch_eq_occursLit pat.data hpat]

/-- C3 as amended: for metacharacter-free search strings, the driver-ID and
trip-ID filters are case-SENSITIVE substring matches: a record is retained
iff the search string occurs in the string form of the identifier with
case respected (the source passes no case=False to str.contains). -/
theorem id_filters_case_sensitive_substring (pat : String) (t t1 t2 : Table)
    (hpat : pat.data.all regexLiteralChar = true)
    (h1 : driverStep pat t = .ok t1) (h2 : tripStep pat t = .ok t2) :
    (∀ r : Row, r ∈ t1.rows ↔
      (r ∈ t.rows ∧ occursLit pat.data r.driver_num.data = true)) ∧
    (∀ r : Row, r ∈ t2.rows ↔
      (r ∈ t.rows ∧ occursLit pat.data r.trip_id.data = true)) := by
  constructor
  · intro r
    unfold driverStep at h1
    split_ifs at h1 with hpe hD
    · cases h1
      subst hpe
      simp [occursLit_nil]
    · cases h1
      exact mem_contains_filter pat hpat (fun x => x.driver_num) t.rows r
  · intro r
    unfold tripStep at h2
    split_ifs at h2 with hpe hT
    · cases h2
      subst hpe
      simp [occursLit_nil]
    · cases h2
      exact mem_contains_filter pat hpat (fun x => x.trip_id) t.rows r

/-- Witness for C3 (amended): searching "51" keeps the record whose trip_id
is "512345". -/
theorem id_filters_case_sensitive_substring_witness :
    rowW ∈ (mkTable [rowW]).rows ∧ occursLit "51".data rowW.trip_id.data = true :=
  ((id_filters_case_sensitive_substring "51" (mkTable [rowW])
      { mkTable [rowW] with rows := [] } (mkTable [rowW]) (by decide)
      (by with_unfolding_all decide) (by with_unfolding_all decide)).2 rowW).mp
    (by decide)

/-- Counterexample for C3 as stated: the search string "ab" (already
lower-case) occurs case-insensitively in the identifier "AB5", yet the
driver-ID filter drops the record: the match is not case-insensitive. -/
theorem id_filter_not_case_insensitive :
    "ab".toLower = "ab" ∧
    occursLit "ab".data rowAB.driver_num.toLower.data = true ∧
    driverStep "ab" (mkTable [rowAB]) = .ok { mkTable [rowAB] with rows := [] } := by
  with_unfolding_all decide

/-- Counterexample for C2 as stated: applying the driver-ID filter to a
table lacking the driver_num column raises a KeyError instead of degrading
to a default. -/
theorem missing_column_filter_raises :
    appFilter driver58Criteria { mkTable [rowW] with hasDriverNum := false } =
      .error "KeyError: driver_num" := by
  with_unfolding_all decide

/-- C2 as amended: missing-column tolerance holds exactly where the code
guards: the account filter is skipped (input unchanged) when its column is
missing, the status filter is skipped because the UI forces "All" when its
column is missing, and every monetary sum degrades to 0; but the driver-ID,
trip-ID and NACHA filters, the date filter, and the NACHA options list
raise a KeyError when their column is missing. -/
theorem missing_column_tolerance :
    (∀ (t : Table) (s : String), t.hasAccount = false → accountStep s t = t) ∧
    (∀ (t : Table) (s : String), t.hasStatus = false → s = "All" →
      statusStep s t = .ok t) ∧
    (∀ t : Table, t.hasTotalPaid = false → (summarize t).net_deposit = 0) ∧
    (∀ t : Table, t.hasBaseFare = false → (summarize t).sum_base = 0) ∧
    (∀ t : Table, t.hasWaitTimePay = false → (summarize t).sum_wait = 0) ∧
    (∀ t : Table, t.hasStopsAmount = false → (summarize t).sum_stops = 0) ∧
    (∀ t : Table, t.hasTolls = false → (summarize t).sum_tolls = 0) ∧
    (∀ t : Table, t.hasTips = false → (summarize t).sum_tips = 0) ∧
    (∀ t : Table, t.hasCoopCommission = false → (summarize t).sum_comm = 0) ∧
    (∀ t : Table, t.hasCashCollected = false → (summarize t).sum_cash = 0) ∧
    (∀ (t : Table) (s : String), t.hasDriverNum = false → s ≠ "" →
      driverStep s t = .error "KeyError: driver_num") ∧
    (∀ (t : Table) (s : String), t.hasTripId = false → s ≠ "" →
      tripStep s t = .error "KeyError: trip_id") ∧
    (∀ (t : Table) (s : String), t.hasNachaTitle = false → s ≠ "All" →
      nachaStep s t = .error "KeyError: nacha_title") ∧
    (∀ (t : Table) (dr : List Int) (s e : Int), t.hasJobDate = false →
      dr = [s, e] → dateStep dr t = .error "KeyError: job_date") ∧
    (∀ t : Table, t.hasNachaTitle = false →
      nacha_options t = .error "KeyError: nacha_title") := by
  refine ⟨?_, ?_, ?_, ?_, ?_, ?_, ?_, ?_, ?_, ?_, ?_, ?_, ?_, ?_, ?_⟩
  · intro t s h
    simp [accountStep, h]
  · intro t s h hAll
    subst hAll
    rfl
  · intro t h
    simp [summarize, h]
  · intro t h
    simp [summarize, h]
  · intro t h
    simp [summarize, h]
  · intro t h
    simp [summarize, h]
  · intro t h
    simp [summarize, h]
  · intro t h
    simp [summarize, h]
  · intro t h
    simp [summarize, h]
  · intro t h
    simp [summarize, h]
  · intro t s h hs
    simp [driverStep, h, hs]
  · intro t s h hs
    simp [tripStep, h, hs]
  · intro t s h hs
    simp [nachaStep, h, hs]
  · intro t dr s e h hdr
    subst hdr
    simp [dateStep, h]
  · intro t h
    simp [nacha_options, h]

/-- Witness for C2 (amended): the guarded and unguarded behaviours on
concrete tables each missing one column. -/
theorem missing_column_tolerance_witness :
    accountStep "Acme" { mkTable [rowW] with hasAccount := false } =
      { mkTable [rowW] with hasAccount := false } ∧
    (summarize { mkTable [rowW] with hasTotalPaid := false }).net_deposit = 0 ∧
    (summarize { mkTable [rowW] with hasTips := false }).sum_tips = 0 ∧
    (summarize { mkTable [rowW] with hasCashCollected := false }).sum_cash = 0 ∧
    driverStep "58" { mkTable [rowW] with hasDriverNum := false } =
      .error "KeyError: driver_num" :=
  ⟨missing_column_tolerance.1 _ "Acme" rfl,
   missing_column_tolerance.2.2.1 _ rfl,
   missing_column_tolerance.2.2.2.2.2.2.2.1 _ rfl,
   missing_column_tolerance.2.2.2.2.2.2.2.2.2.1 _ rfl,
   missing_column_tolerance.2.2.2.2.2.2.2.2.2.2.1 _ "58" rfl (by decide)⟩

/-- C1: on a table with the driver_num and bank columns, login succeeds iff
the trimmed string-form driver_num of some record equals the trimmed ID input
and some record of that driver also has trimmed string-form bank equal to
the trimmed PIN input; and on success the authenticated scope is exactly
every row of that driver, not only the rows whose bank matched. -/
theorem access_gate_login (df : Table) (did pin : String)
    (hD : df.hasDriverNum = true) (hB : df.hasBank = true) :
    ((∃ scope dn, login_screen df did pin = .ok (.success scope dn)) ↔
      ((∃ r ∈ df.rows, r.driver_num.trim = did.trim) ∧
       (∃ r ∈ df.rows, r.driver_num.trim = did.trim ∧ r.bank.trim = pin.trim))) ∧
    (∀ scope dn, login_screen df did pin = .ok (.success scope dn) →
      scope.rows = df.rows.filter (fun r => r.driver_num.trim == did.trim)) := by
  unfold login_screen
  rw [hD, hB]
  simp only [Bool.not_true, Bool.false_eq_true, if_false]
  by_cases hE : df.rows.isEmpty
  · rw [List.isEmpty_iff] at hE
    simp [hE]
  · rw [if_neg hE]
    by_cases hU :
        (df.rows.filter (fun r => r.driver_num.trim == did.trim)).isEmpty
    · rw [if_pos hU]
      rw [List.isEmpty_iff, List.filter_eq_nil_iff] at hU
      constructor
      · constructor
        · rintro ⟨scope, dn, h⟩
          simp at h
        · rintro ⟨⟨r, hr, hrd⟩, -⟩
          exact absurd (by simpa using hrd) (hU r hr)
      · intro scope dn h
        simp at h
    · rw [if_neg hU]
      by_cases hV :
          ((df.rows.filter (fun r => r.driver_num.trim == did.trim)).filter
            (fun r => r.bank.trim == pin.trim)).isEmpty
      · rw [if_pos hV]
        rw [List.isEmpty_iff, List.filter_eq_nil_iff] at hV
        constructor
        · constructor
          · rintro ⟨scope, dn, h⟩
            simp at h
          · rintro ⟨-, ⟨r, hr, hrd, hrb⟩⟩
            have hmem : r ∈ df.rows.filter
                (fun x => x.driver_num.trim == did.trim) :=
              List.mem_filter.mpr ⟨hr, by simpa using hrd⟩
            exact absurd (by simpa using hrb) (hV r hmem)
        · intro scope dn h
          simp at h
      · rw [if_neg hV]
        rw [List.isEmpty_iff] at hU hV
        constructor
        · constructor
          · intro _h
            obtain ⟨r, hr⟩ := List.exists_mem_of_ne_nil _ hU
            obtain ⟨q, hq⟩ := List.exists_mem_of_ne_nil _ hV
            rw [List.mem_filter] at hr
            rw [List.mem_filter, List.mem_filter] at hq
            exact ⟨⟨r, hr.1, by simpa using hr.2⟩,
              ⟨q, hq.1.1, by simpa using hq.1.2, by simpa using hq.2⟩⟩
          · intro _h
            exact ⟨_, _, rfl⟩
        · intro scope dn h
          have := (Except.ok.injEq _ _).mp h
          cases this
          rfl

/-- Witness for C1: driver 5800905 with bank PIN " 1234 " (whitespace
trimmed) logs in successfully on a two-driver table. -/
theorem access_gate_login_witness :
    ∃ scope dn,
      login_screen (mkTable [rowW, rowNeg]) "5800905" " 1234 " =
        .ok (.success scope dn) :=
  (access_gate_login (mkTable [rowW, rowNeg]) "5800905" " 1234 " rfl rfl).1.mpr
    ⟨⟨rowW, by decide, by with_unfolding_all decide⟩,
     ⟨rowW, by decide, by with_unfolding_all decide, by with_unfolding_all decide⟩⟩

/-- The name block only drops rows, keeping flags. -/
lemma nameStep_rows (s : String) (t : Table) :
    ∃ rs, nameStep s t = { t with rows := rs } ∧ rs.Sublist t.rows := by
  unfold nameStep
  split_ifs
  · exact ⟨t.rows, rfl, List.Sublist.refl _⟩
  · exact ⟨_, rfl, List.filter_sublist _⟩
  · exact ⟨_, rfl, List.filter_sublist _⟩

/-- The driver-ID block only drops rows, keeping flags. -/
lemma driverStep_rows (s : String) (t t' : Table) (h : driverStep s t = .ok t') :
    ∃ rs, t' = { t with rows := rs } ∧ rs.Sublist t.rows := by
  unfold driverStep at h
  split_ifs at h
  · cases h
    exact ⟨t.rows, rfl, List.Sublist.refl _⟩
  · cases h
    exact ⟨_, rfl, List.filter_sublist _⟩

/-- The trip-ID block only drops rows, keeping flags. -/
lemma tripStep_rows (s : String) (t t' : Table) (h : tripStep s t = .ok t') :
    ∃ rs, t' = { t with rows := rs } ∧ rs.Sublist t.rows := by
  unfold tripStep at h
  split_ifs at h
  · cases h
    exact ⟨t.rows, rfl, List.Sublist.refl _⟩
  · cases h
    exact ⟨_, rfl, List.filter_sublist _⟩

/-- The NACHA block only drops rows, keeping flags. -/
lemma nachaStep_rows (s : String) (t t' : Table) (h : nachaStep s t = .ok t') :
    ∃ rs, t' = { t with rows := rs } ∧ rs.Sublist t.rows := by
  unfold nachaStep at h
  split_ifs at h
  · cases h
    exact ⟨t.rows, rfl, List.Sublist.refl _⟩
  · cases h
    exact ⟨_, rfl, List.filter_sublist _⟩

/-- The account block only drops rows, keeping flags. -/
lemma accountStep_rows (s : String) (t : Table) :
    ∃ rs, accountStep s t = { t with rows := rs } ∧ rs.Sublist t.rows := by
  unfold accountStep
  split_ifs
  · exact ⟨_, rfl, List.filter_sublist _⟩
  · exact ⟨t.rows, rfl, List.Sublist.refl _⟩

/-- The status block only drops rows, keeping flags. -/
lemma statusStep_rows (s : String) (t t' : Table) (h : statusStep s t = .ok t') :
    ∃ rs, t' = { t with rows := rs } ∧ rs.Sublist t.rows := by
  unfold statusStep at h
  split_ifs at h
  · cases h
    exact ⟨t.rows, rfl, List.Sublist.refl _⟩
  · cases h
    exact ⟨_, rfl, List.filter_sublist _⟩

/-- The date block only drops rows, keeping flags. -/
lemma dateStep_rows (dr : List Int) (t t' : Table) (h : dateStep dr t = .ok t') :
    ∃ rs, t' = { t with rows := rs } ∧ rs.Sublist t.rows := by
  unfold dateStep at h
  rcases dr with _ | ⟨a, _ | ⟨b, _ | ⟨c, rest⟩⟩⟩
  · cases h
    exact ⟨t.rows, rfl, List.Sublist.refl _⟩
  · cases h
    exact ⟨t.rows, rfl, List.Sublist.refl _⟩
  · split_ifs at h
    cases h
    exact ⟨_, rfl, List.filter_sublist _⟩
  · cases h
    exact ⟨t.rows, rfl, List.Sublist.refl _⟩

/-- Inversion of a successful Except bind. -/
lemma except_bind_ok {a b g : Type} (x : Except g a) (f : a → Except g b) (v : b)
    (h : Except.bind x f = .ok v) : ∃ u, x = .ok u ∧ f u = .ok v := by
  cases x with
  | error e => simp [Except.bind] at h
  | ok u => exact ⟨u, rfl, by simpa [Except.bind] using h⟩

/-- The whole filter pipeline only drops rows, keeping flags. -/
lemma appFilter_rows (c : Criteria) (t t' : Table) (h : appFilter c t = .ok t') :
    ∃ rs, t' = { t with rows := rs } ∧ rs.Sublist t.rows := by
  unfold appFilter at h
  obtain ⟨rs1, e1, s1⟩ := nameStep_rows c.search_name t
  rw [e1] at h
  obtain ⟨t2, h2, h⟩ := except_bind_ok _ _ _ h
  obtain ⟨rs2, e2, s2⟩ := driverStep_rows _ _ _ h2
  subst e2
  obtain ⟨t3, h3, h⟩ := except_bind_ok _ _ _ h
  obtain ⟨rs3, e3, s3⟩ := tripStep_rows _ _ _ h3
  subst e3
  obtain ⟨t4, h4, h⟩ := except_bind_ok _ _ _ h
  obtain ⟨rs4, e4, s4⟩ := nachaStep_rows _ _ _ h4
  subst e4
  obtain ⟨t6, h6, h⟩ := except_bind_ok _ _ _ h
  obtain ⟨rs5, e5, s5⟩ := accountStep_rows c.search_account
    { t with rows := rs4 }
  rw [e5] at h6
  obtain ⟨rs6, e6, s6⟩ := statusStep_rows _ _ _ h6
  subst e6
  obtain ⟨rs7, e7, s7⟩ := dateStep_rows c.date_range _ _ h
  refine ⟨rs7, by rw [e7], ?_⟩
  exact (((((s7.trans s6).trans s5).trans s4).trans s3).trans s2).trans s1

/-- A guarded column sum over a sublist of rows is bounded by the sum over
all rows, when the summed field is nonnegative on all rows. -/
lemma cond_sum_le (b : Bool) (f : Row → Rat) (rs l : List Row)
    (hs : rs.Sublist l) (h : ∀ r ∈ l, 0 ≤ f r) :
    (if b = true then (rs.map f).sum else 0) ≤
      (if b = true then (l.map f).sum else 0) := by
  cases b
  · simp
  · simp only [if_pos rfl]
    refine List.Sublist.sum_le_sum (hs.map f) ?_
    intro a ha
    obtain ⟨r, hr, rfl⟩ := List.mem_map.mp ha
    exact h r hr

/-- C7 as amended: when every monetary field is nonnegative on the input
records, each monetary sum of the summary of any filtered subset (any
criteria) is bounded by the corresponding sum of the summary of the
unfiltered records, including the derived gross fare and net deposit. -/
theorem summarize_monotone (t : Table) (c : Criteria) (t' : Table)
    (h : appFilter c t = .ok t')
    (hpos : ∀ r ∈ t.rows, 0 ≤ r.base_fare ∧ 0 ≤ r.wait_time_pay ∧
      0 ≤ r.stops_amount ∧ 0 ≤ r.tolls ∧ 0 ≤ r.tips ∧
      0 ≤ r.coop_commission ∧ 0 ≤ r.cash_collected ∧ 0 ≤ r.total_paid) :
    (summarize t').sum_base ≤ (summarize t).sum_base ∧
    (summarize t').sum_wait ≤ (summarize t).sum_wait ∧
    (summarize t').sum_stops ≤ (summarize t).sum_stops ∧
    (summarize t').sum_tolls ≤ (summarize t).sum_tolls ∧
    (summarize t').sum_tips ≤ (summarize t).sum_tips ∧
    (summarize t').sum_comm ≤ (summarize t).sum_comm ∧
    (summarize t').sum_cash ≤ (summarize t).sum_cash ∧
    (summarize t').gross_fare ≤ (summarize t).gross_fare ∧
    (summarize t').net_deposit ≤ (summarize t).net_deposit := by
  obtain ⟨rs, rfl, hsub⟩ := appFilter_rows c t t' h
  have hbase := cond_sum_le t.hasBaseFare (fun r => r.base_fare) rs t.rows hsub
    (fun r hr => (hpos r hr).1)
  have hwait := cond_sum_le t.hasWaitTimePay (fun r => r.wait_time_pay) rs t.rows hsub
    (fun r hr => (hpos r hr).2.1)
  have hstops := cond_sum_le t.hasStopsAmount (fun r => r.stops_amount) rs t.rows hsub
    (fun r hr => (hpos r hr).2.2.1)
  have htolls := cond_sum_le t.hasTolls (fun r => r.tolls) rs t.rows hsub
    (fun r hr => (hpos r hr).2.2.2.1)
  have htips := cond_sum_le t.hasTips (fun r => r.tips) rs t.rows hsub
    (fun r hr => (hpos r hr).2.2.2.2.1)
  have hcomm := cond_sum_le t.hasCoopCommission (fun r => r.coop_commission) rs t.rows hsub
    (fun r hr => (hpos r hr).2.2.2.2.2.1)
  have hcash := cond_sum_le t.hasCashCollected (fun r => r.cash_collected) rs t.rows hsub
    (fun r hr => (hpos r hr).2.2.2.2.2.2.1)
  have hpaid := cond_sum_le t.hasTotalPaid (fun r => r.total_paid) rs t.rows hsub
    (fun r hr => (hpos r hr).2.2.2.2.2.2.2)
  refine ⟨hbase, hwait, hstops, htolls, htips, hcomm, hcash, ?_, hpaid⟩
  exact add_le_add (add_le_add (add_le_add (add_le_add hbase hwait) hstops) htolls) htips

/-- Witness for C7 (amended): filtering the all-nonnegative two-record
table by driver-ID "58" keeps only rowW, and its net-deposit sum is bounded
by the unfiltered one. -/
theorem summarize_monotone_witness :
    (summarize { mkTable [rowW, rowAB] with rows := [rowW] }).net_deposit ≤
      (summarize (mkTable [rowW, rowAB])).net_deposit :=
  (summarize_monotone (mkTable [rowW, rowAB]) driver58Criteria
    { mkTable [rowW, rowAB] with rows := [rowW] }
    (by with_unfolding_all decide) (by decide)).2.2.2.2.2.2.2.2

/-- Counterexample for C7 as stated: with a negative total_paid on a
filtered-out record (a clawback row), the filtered net-deposit sum exceeds
the unfiltered one, so bounding fails without a nonnegativity hypothesis. -/
theorem summarize_monotone_counterexample :
    appFilter driver58Criteria (mkTable [rowW, rowNeg]) =
      .ok { mkTable [rowW, rowNeg] with rows := [rowW] } ∧
    (summarize (mkTable [rowW, rowNeg])).net_deposit <
      (summarize { mkTable [rowW, rowNeg] with rows := [rowW] }).net_deposit := by
  with_unfolding_all decide

end DriverPayments
